import Mathlib

/-
Shallow embedding of the IDS uEye camera driver
(src/microscope/cameras/ids.py) for checking the repository's
natural-language specification.

Conventions:
  * Exposure times are modelled as rationals (`Rat`).  Every arithmetic
    operation the source performs on them (min, max, multiply / divide by
    1000, division by 16) is exact in IEEE double precision for the values
    involved, so `Rat` is a faithful model.
  * Python exceptions are modelled by the `PyErr` type: the constructor is
    the exception class, the string is the format string that appears
    literally in the source, and the argument list holds the values the
    source interpolates into it.
  * Hardware (the vendor driver reached through `microscope._wrappers.ueye`)
    is modelled as an oracle record per subsystem: a boolean success flag
    per status-returning call and a value per value-returning query.
-/

namespace IDSuEye

/-- Python error values raised by the embedded methods: the constructor is
the Python exception class, the string is the format string from the source,
and the list holds the values interpolated into it. -/
inductive PyErr where
  | assertionError (msg : String)
  | valueError (msg : String) (args : List Nat)
  | runtimeError (msg : String) (args : List Nat)
deriving DecidableEq

/-- Decidable equality for `Except`, so that outcome records built from it
can be evaluated on concrete inputs. -/
instance {ε α : Type} [DecidableEq ε] [DecidableEq α] :
    DecidableEq (Except ε α) := fun a b =>
  match a, b with
  | .ok x, .ok y =>
    if h : x = y then isTrue (by rw [h]) else isFalse (by simp [h])
  | .ok _, .error _ => isFalse (by simp)
  | .error _, .ok _ => isFalse (by simp)
  | .error x, .error y =>
    if h : x = y then isTrue (by rw [h]) else isFalse (by simp [h])

/-- Mutable per-session camera state of the `IDSuEye` object: the sensor
shape read once at initialization, the cached exposure range (seconds), the
cached exposure time (seconds) and the enabled / standby flag. -/
structure CamState where
  sensor_shape : Nat × Nat
  exposure_range : Rat × Rat
  exposure_time : Rat
  enabled : Bool
deriving DecidableEq

/-- Hardware oracle for the exposure subsystem: status of the
`is_Exposure` SET call, status and reported millisecond value of the
`is_Exposure` GET call, and status plus reported (min, max, inc)
millisecond triple of the GET_EXPOSURE_RANGE call. -/
structure ExposureHw where
  write_ok : Bool
  read_ok : Bool
  read_ms : Rat
  range_ok : Bool
  range_ms : Rat × Rat × Rat
deriving DecidableEq

/-- Embeds `IDSuEye._read_exposure_time` (ids.py lines 185-192): reads the
millisecond value from hardware and returns it divided by 1000. -/
def read_exposure_time (hw : ExposureHw) : Except PyErr Rat :=
  if hw.read_ok then
    .ok (hw.read_ms / 1000)
  else
    .error (PyErr.runtimeError ("failed to to read exposure time") [])

/-- Embeds `IDSuEye._read_exposure_range` (ids.py lines 194-202): the
hardware reports (min, max, inc) in milliseconds; only
(min/1000, max/1000) is returned, the increment is discarded. -/
def read_exposure_range (hw : ExposureHw) : Except PyErr (Rat × Rat) :=
  if hw.range_ok then
    .ok (hw.range_ms.1 / 1000, hw.range_ms.2.1 / 1000)
  else
    .error (PyErr.runtimeError ("failed to to read exposure time range") [])

/-- Embeds `IDSuEye.get_exposure_time` (ids.py lines 218-221): returns the
cached value without querying hardware. -/
def get_exposure_time (st : CamState) : Rat :=
  st.exposure_time

/-- Embeds `IDSuEye.set_exposure_time` (ids.py lines 223-235), with the
source's assertion exactly as written there: `assert secs == 0.0`, raising
`AssertionError` whenever the clamped value differs from zero.  The result
is paired with the list of millisecond values passed to the hardware
exposure write (`is_Exposure` with `IS_EXPOSURE_CMD_SET_EXPOSURE`), so that
theorems can speak about what reaches the hardware. -/
def set_exposure_time (hw : ExposureHw) (st : CamState) (value : Rat) :
    Except PyErr CamState × List Rat :=
  let secs := max (min value st.exposure_range.2) st.exposure_range.1
  if secs = 0 then
    if hw.write_ok then
      match read_exposure_time hw with
      | .ok t => (.ok { st with exposure_time := t }, [secs * 1000])
      | .error e => (.error e, [secs * 1000])
    else
      (.error (PyErr.runtimeError ("failed to set exposure time") []), [secs * 1000])
  else
    (.error (PyErr.assertionError ("exposure value should not be zero")), [])

/-- Modelled from the spec: vendor binning bit pattern from
`microscope._wrappers.ueye` (not under the analysed sources); the spec
requires horizontal and vertical sub-patterns to occupy distinct bit
ranges and factor 1 to map to pattern 0.  Values follow the vendor SDK. -/
def BINNING_2X_VERTICAL : Nat := 0x0001

/-- Modelled from the spec: vendor binning bit pattern, see
`BINNING_2X_VERTICAL`. -/
def BINNING_2X_HORIZONTAL : Nat := 0x0002

/-- Modelled from the spec: vendor binning bit pattern, see
`BINNING_2X_VERTICAL`. -/
def BINNING_4X_VERTICAL : Nat := 0x0004

/-- Modelled from the spec: vendor binning bit pattern, see
`BINNING_2X_VERTICAL`. -/
def BINNING_4X_HORIZONTAL : Nat := 0x0008

/-- Modelled from the spec: vendor binning bit pattern, see
`BINNING_2X_VERTICAL`. -/
def BINNING_3X_VERTICAL : Nat := 0x0010

/-- Modelled from the spec: vendor binning bit pattern, see
`BINNING_2X_VERTICAL`. -/
def BINNING_3X_HORIZONTAL : Nat := 0x0020

/-- Modelled from the spec: vendor binning bit pattern, see
`BINNING_2X_VERTICAL`. -/
def BINNING_5X_VERTICAL : Nat := 0x0040

/-- Modelled from the spec: vendor binning bit pattern, see
`BINNING_2X_VERTICAL`. -/
def BINNING_5X_HORIZONTAL : Nat := 0x0080

/-- Modelled from the spec: vendor binning bit pattern, see
`BINNING_2X_VERTICAL`. -/
def BINNING_6X_VERTICAL : Nat := 0x0100

/-- Modelled from the spec: vendor binning bit pattern, see
`BINNING_2X_VERTICAL`. -/
def BINNING_6X_HORIZONTAL : Nat := 0x0200

/-- Modelled from the spec: vendor binning bit pattern, see
`BINNING_2X_VERTICAL`. -/
def BINNING_8X_VERTICAL : Nat := 0x0400

/-- Modelled from the spec: vendor binning bit pattern, see
`BINNING_2X_VERTICAL`. -/
def BINNING_8X_HORIZONTAL : Nat := 0x0800

/-- Modelled from the spec: vendor binning bit pattern, see
`BINNING_2X_VERTICAL`. -/
def BINNING_16X_VERTICAL : Nat := 0x1000

/-- Modelled from the spec: vendor binning bit pattern, see
`BINNING_2X_VERTICAL`. -/
def BINNING_16X_HORIZONTAL : Nat := 0x2000

/-- Embeds `_BITS_TO_HORIZONTAL_BINNING` (ids.py lines 364-373) as an
association list from bit pattern to integer factor. -/
def BITS_TO_HORIZONTAL_BINNING : List (Nat × Nat) :=
  [(0, 1),
   (BINNING_2X_HORIZONTAL, 2),
   (BINNING_3X_HORIZONTAL, 3),
   (BINNING_4X_HORIZONTAL, 4),
   (BINNING_5X_HORIZONTAL, 5),
   (BINNING_6X_HORIZONTAL, 6),
   (BINNING_8X_HORIZONTAL, 8),
   (BINNING_16X_HORIZONTAL, 16)]

/-- Embeds `_HORIZONTAL_BINNING_TO_BITS` (ids.py line 375), the inversion
of `_BITS_TO_HORIZONTAL_BINNING` by a dict comprehension. -/
def HORIZONTAL_BINNING_TO_BITS : List (Nat × Nat) :=
  BITS_TO_HORIZONTAL_BINNING.map fun p => (p.2, p.1)

/-- Embeds `_BITS_TO_VERTICAL_BINNING` (ids.py lines 377-386). -/
def BITS_TO_VERTICAL_BINNING : List (Nat × Nat) :=
  [(0, 1),
   (BINNING_2X_VERTICAL, 2),
   (BINNING_3X_VERTICAL, 3),
   (BINNING_4X_VERTICAL, 4),
   (BINNING_5X_VERTICAL, 5),
   (BINNING_6X_VERTICAL, 6),
   (BINNING_8X_VERTICAL, 8),
   (BINNING_16X_VERTICAL, 16)]

/-- Embeds `_VERTICAL_BINNING_TO_BITS` (ids.py line 388). -/
def VERTICAL_BINNING_TO_BITS : List (Nat × Nat) :=
  BITS_TO_VERTICAL_BINNING.map fun p => (p.2, p.1)

/-- Hardware oracle for the binning subsystem: the bitmask reported by
`is_SetBinning` with `IS_GET_SUPPORTED_BINNING`, and the status of the
`is_SetBinning` set command. -/
structure BinningHw where
  supported : Nat
  set_ok : Bool
deriving DecidableEq

/-- Outcome of one `_set_binning` call: the Python result (the `True`
return value or the raised exception), the values passed to the
`is_SetBinning` set command (the GET_SUPPORTED_BINNING query is not
listed), how many times the `set_exposure_time` path was invoked, the
millisecond values that reached the hardware exposure write, and the
camera state after the call (mutations that happened before a raise are
kept, as in Python). -/
structure SetBinningOut where
  result : Except PyErr Bool
  binningCmds : List Nat
  exposureSetCalls : Nat
  exposureWrites : List Rat
  state : CamState
deriving DecidableEq

/-- Embeds `IDSuEye._set_binning` (ids.py lines 258-283).  Line 265 of the
source reads `binning = h_bits & v_bits`, a bitwise AND, and is embedded
as written (`&&&`). -/
def set_binning (ehw : ExposureHw) (bhw : BinningHw) (st : CamState)
    (h_bin v_bin : Nat) : SetBinningOut :=
  match HORIZONTAL_BINNING_TO_BITS.lookup h_bin,
        VERTICAL_BINNING_TO_BITS.lookup v_bin with
  | some h_bits, some v_bits =>
    let binning := h_bits &&& v_bits
    if binning ≠ (bhw.supported &&& binning) then
      ⟨.error (PyErr.valueError ("unsupported binning mode %dx%d") [h_bin, v_bin]),
       [], 0, [], st⟩
    else if bhw.set_ok then
      match set_exposure_time ehw st st.exposure_time with
      | (.ok st2, ws) => ⟨.ok true, [binning], 1, ws, st2⟩
      | (.error e, ws) => ⟨.error e, [binning], 1, ws, st⟩
    else
      ⟨.error (PyErr.runtimeError ("Failed to set binning") []), [binning], 0, [], st⟩
  | _, _ =>
    ⟨.error (PyErr.valueError ("unsupported binning mode %dx%d") [h_bin, v_bin]),
     [], 0, [], st⟩

/-- Hardware oracle for the power / standby subsystem: the answer of the
`CameraStatus(STANDBY_SUPPORTED, GET_STATUS)` query, and the statuses of
the `CameraStatus(STANDBY, TRUE)` (enter standby) and
`CameraStatus(STANDBY, FALSE)` (leave standby) commands. -/
structure PowerHw where
  standby_supported : Bool
  enter_ok : Bool
  exit_ok : Bool
deriving DecidableEq

/-- Embeds `IDSuEye._on_enable` (ids.py lines 129-137): the pair is the
raised exception (if any) and the camera state afterwards; the source
assigns `self.enabled = True` only after the status check, so on a raise
the state is returned unchanged. -/
def on_enable (hw : PowerHw) (st : CamState) : Option PyErr × CamState :=
  if hw.standby_supported then
    if hw.exit_ok then
      (none, { st with enabled := true })
    else
      (some (PyErr.runtimeError ("failed to enter standby") []), st)
  else
    (some (PyErr.runtimeError ("not supported") []), st)

/-- Embeds `IDSuEye._on_disable` (ids.py lines 139-146). -/
def on_disable (hw : PowerHw) (st : CamState) : Option PyErr × CamState :=
  if hw.standby_supported then
    if hw.enter_ok then
      (none, { st with enabled := false })
    else
      (some (PyErr.runtimeError ("failed to enter standby") []), st)
  else
    (some (PyErr.runtimeError ("not supported") []), st)

/-- Modelled from the spec: vendor color-mode code for 8-bit monochrome
from `microscope._wrappers.ueye` (not under the analysed sources); only
the distinctness of the four codes matters to the claims.  Value per the
vendor SDK. -/
def CM_MONO8 : Nat := 6

/-- Modelled from the spec: vendor color-mode code, see `CM_MONO8`. -/
def CM_MONO10 : Nat := 34

/-- Modelled from the spec: vendor color-mode code, see `CM_MONO8`. -/
def CM_MONO12 : Nat := 26

/-- Modelled from the spec: vendor color-mode code, see `CM_MONO8`. -/
def CM_MONO16 : Nat := 28

/-- Embeds `_COLORMODE_TO_N_BITS` (ids.py lines 390-395). -/
def COLORMODE_TO_N_BITS : List (Nat × Nat) :=
  [(CM_MONO10, 16),
   (CM_MONO12, 16),
   (CM_MONO16, 16),
   (CM_MONO8, 8)]

/-- Hardware oracle for the acquisition pipeline: the color mode reported
by `is_SetColorMode(IS_GET_COLOR_MODE)` and the statuses of
`is_AllocImageMem`, `is_SetImageMem` and `is_FreezeVideo`. -/
structure AcqHw where
  colormode : Nat
  alloc_ok : Bool
  setmem_ok : Bool
  freeze_ok : Bool
deriving DecidableEq

/-- Embeds `IDSuEye._get_bits_per_pixel` (ids.py lines 352-361): a table
miss raises a `RuntimeError` carrying the offending numeric code. -/
def get_bits_per_pixel (hw : AcqHw) : Except PyErr Nat :=
  match COLORMODE_TO_N_BITS.lookup hw.colormode with
  | some n => .ok n
  | none =>
    .error (PyErr.runtimeError ("failed to get \"colormode\". Error code %d")
      [hw.colormode])

/-- Element type of the numpy buffer chosen in `acquire`. -/
inductive Dtype where
  | uint8
  | uint16
deriving DecidableEq

/-- The numpy array allocated in `acquire`: its shape and element type. -/
structure FrameBuffer where
  shape : Nat × Nat
  dtype : Dtype
deriving DecidableEq

/-- Outcome of one `acquire` call: the Python result (on success, the
function's return value — the source has no return statement, so a
successful run yields Python `None`, modelled as `Option.none`), and the
buffer allocated by `np.zeros` at line 334 if that point was reached. -/
structure AcquireOut where
  result : Except PyErr (Option FrameBuffer)
  allocated : Option FrameBuffer
deriving DecidableEq

/-- Embeds `IDSuEye.acquire` (ids.py lines 325-350).  `get_sensor_shape`
(device base class, outside the analysed sources) delegates to
`_get_sensor_shape` (line 238), which returns the `SensorShape` recorded
at initialization, per the spec.  The source function ends after the
`is_FreezeVideo` status check without returning the buffer. -/
def acquire (hw : AcqHw) (st : CamState) : AcquireOut :=
  match get_bits_per_pixel hw with
  | .error e => ⟨.error e, none⟩
  | .ok bitspixel =>
    let dtype := if bitspixel = 8 then Dtype.uint8 else Dtype.uint16
    let buffer : FrameBuffer := ⟨st.sensor_shape, dtype⟩
    if hw.alloc_ok then
      if hw.setmem_ok then
        if hw.freeze_ok then
          ⟨.ok none, some buffer⟩
        else
          ⟨.error (PyErr.runtimeError ("failed to acquire image") []), some buffer⟩
      else
        ⟨.error (PyErr.runtimeError ("failed to set image mem") []), some buffer⟩
    else
      ⟨.error (PyErr.runtimeError ("failed to alloc image") []), some buffer⟩

/-- Embeds the temperature decode of `IDSuEye.get_sensor_temperature`
(ids.py lines 307-311), exactly as written there:
`sign = bits >> 15`, `integer_part = bits >> 4 & 0b111111`,
`fractional_part = bits & 0b1111`, and the returned value is
`((-1)**sign) * float(integer_part) + (fractional_part/16.0)`. -/
def decode_temperature (bits : Nat) : Rat :=
  let sign := bits >>> 15
  let integer_part := (bits >>> 4) &&& 0b111111
  let fractional_part := bits &&& 0b1111
  ((-1 : Rat) ^ sign) * (integer_part : Rat) + ((fractional_part : Rat) / 16)

/-- C1 (code bug evidence): on a session whose SensorShape is (1280, 1024)
with every hardware call succeeding, `acquire` allocates a buffer of
exactly that shape, with uint8 elements for the 8-bit color mode and
uint16 elements for the 12-bit mode — but, the source having no return
statement, the successful call returns Python None instead of that
buffer. -/
theorem acquire_succeeds_returning_none :
    acquire ⟨CM_MONO8, true, true, true⟩ ⟨(1280, 1024), (1/1000, 1), 1/100, true⟩
      = ⟨.ok none, some ⟨(1280, 1024), Dtype.uint8⟩⟩
    ∧ acquire ⟨CM_MONO12, true, true, true⟩ ⟨(1280, 1024), (1/1000, 1), 1/100, true⟩
      = ⟨.ok none, some ⟨(1280, 1024), Dtype.uint16⟩⟩ :=
  ⟨rfl, rfl⟩

/-- C2 (code bug evidence): with exposure range [1/1000, 1] seconds and the
in-range request 1/2 s, `set_exposure_time` raises
AssertionError("exposure value should not be zero") — the source asserts
`secs == 0.0` where its own comment calls zero the impossible case — so no
hardware write happens and no cached value results, contrary to the
claimed in-range cache and hardware read-back round trip. -/
theorem set_exposure_time_raises_on_in_range_request :
    set_exposure_time ⟨true, true, 1, true, (1, 1000, 1)⟩
        ⟨(1280, 1024), (1/1000, 1), 1/100, true⟩ (1/2)
      = (.error (PyErr.assertionError ("exposure value should not be zero")), []) := by
  norm_num [set_exposure_time, read_exposure_time, min_def, max_def]

/-- C3 (code bug evidence): with range minimum 1/1000 > 0 and request 2 s,
the clamped value is max(min(2, 1), 1/1000) = 1 ≠ 0, yet the defensive
zero-sentinel check fires and the call dies on the assertion: the source's
condition is inverted (`assert secs == 0.0` instead of `secs != 0.0`). -/
theorem set_exposure_time_assert_fires_despite_positive_min :
    ((0 : Rat) < 1/1000)
    ∧ max (min (2 : Rat) 1) (1/1000) ≠ 0
    ∧ (set_exposure_time ⟨true, true, 1, true, (1, 1000, 1)⟩
          ⟨(1280, 1024), (1/1000, 1), 1/100, true⟩ 2).1
        = .error (PyErr.assertionError ("exposure value should not be zero")) := by
  refine ⟨by norm_num, by norm_num [min_def, max_def], ?_⟩
  norm_num [set_exposure_time, read_exposure_time, min_def, max_def]

/-- C4 (code bug evidence): for the pair (2, 2) the value handed to the
hardware binning command is `BINNING_2X_HORIZONTAL & BINNING_2X_VERTICAL`
= 0, because source line 265 combines the sub-patterns with bitwise AND;
the bitwise OR of the same distinct-bit-range patterns is 3. -/
theorem set_binning_combines_patterns_with_and :
    (set_binning ⟨true, true, 0, true, (1, 1000, 1)⟩ ⟨0xFFFF, true⟩
        ⟨(1280, 1024), (0, 0), 0, true⟩ 2 2).binningCmds
      = [BINNING_2X_HORIZONTAL &&& BINNING_2X_VERTICAL]
    ∧ BINNING_2X_HORIZONTAL &&& BINNING_2X_VERTICAL = 0
    ∧ BINNING_2X_HORIZONTAL ||| BINNING_2X_VERTICAL = 3 :=
  ⟨rfl, rfl, rfl⟩

/-- C5 (code bug evidence): for the table-present pair (2, 2) on hardware
whose supported-binning bitmask is 0 (no binning supported at all),
`_set_binning` does not fail with the unsupported-binning ValueError and
does issue a hardware binning command: the AND-combined pattern is 0, so
the subset check `binning != (supported & binning)` can never fire. -/
theorem set_binning_mask_check_bypassed :
    (set_binning ⟨true, true, 0, true, (1, 1000, 1)⟩ ⟨0, true⟩
        ⟨(1280, 1024), (0, 0), 0, true⟩ 2 2).result
        ≠ .error (PyErr.valueError ("unsupported binning mode %dx%d") [2, 2])
    ∧ (set_binning ⟨true, true, 0, true, (1, 1000, 1)⟩ ⟨0, true⟩
        ⟨(1280, 1024), (0, 0), 0, true⟩ 2 2).binningCmds ≠ [] := by
  have h1 : (set_binning ⟨true, true, 0, true, (1, 1000, 1)⟩ ⟨0, true⟩
      ⟨(1280, 1024), (0, 0), 0, true⟩ 2 2).result = .ok true := rfl
  have h2 : (set_binning ⟨true, true, 0, true, (1, 1000, 1)⟩ ⟨0, true⟩
      ⟨(1280, 1024), (0, 0), 0, true⟩ 2 2).binningCmds = [0] := rfl
  exact ⟨by rw [h1]; simp, by rw [h2]; simp⟩

/-- C6 counterexample: a `_set_binning` call that fails (the exposure
re-application dies on the inverted assertion) although the exposure-set
path was invoked exactly once — refuting the claim that on any
`set_binning` failure the exposure-set path is not invoked. -/
theorem set_binning_failure_with_exposure_path_invoked :
    (set_binning ⟨true, true, 1, true, (1, 1000, 1)⟩ ⟨0, true⟩
        ⟨(1280, 1024), (1/1000, 1), 1/2, true⟩ 1 1).result
      = .error (PyErr.assertionError ("exposure value should not be zero"))
    ∧ (set_binning ⟨true, true, 1, true, (1, 1000, 1)⟩ ⟨0, true⟩
        ⟨(1280, 1024), (1/1000, 1), 1/2, true⟩ 1 1).exposureSetCalls = 1 := by
  have hH : HORIZONTAL_BINNING_TO_BITS.lookup 1 = some 0 := rfl
  have hV : VERTICAL_BINNING_TO_BITS.lookup 1 = some 0 := rfl
  simp only [set_binning, hH, hV]
  norm_num [set_exposure_time, read_exposure_time, min_def, max_def]

/-- C6 (amended): the exposure-set path is invoked exactly once when the
validation stages pass and the hardware binning command succeeds (in
particular on every successful `_set_binning` call), and zero times
otherwise — a failing call can therefore have invoked it once, exactly
when the failure arose inside the exposure re-application itself. -/
theorem set_binning_exposure_reapply_discipline (ehw : ExposureHw)
    (bhw : BinningHw) (st : CamState) (h v : Nat) :
    ((set_binning ehw bhw st h v).result = .ok true →
      (set_binning ehw bhw st h v).exposureSetCalls = 1)
    ∧ (set_binning ehw bhw st h v).exposureSetCalls
        = (if (set_binning ehw bhw st h v).binningCmds ≠ [] ∧ bhw.set_ok = true
            then 1 else 0) := by
  unfold set_binning
  cases hH : HORIZONTAL_BINNING_TO_BITS.lookup h <;>
    cases hV : VERTICAL_BINNING_TO_BITS.lookup v <;>
      simp only []
  · simp
  · simp
  · simp
  · split
    · simp
    · split
      · rename_i hok
        split <;> simp [hok]
      · rename_i hok
        simp [hok]

/-- Witness for `set_binning_exposure_reapply_discipline`: a concrete
successful `_set_binning` call on which the exposure-set path fired
exactly once. -/
theorem set_binning_exposure_reapply_discipline_witness :
    (set_binning ⟨true, true, 0, true, (1, 1000, 1)⟩ ⟨0, true⟩
        ⟨(1280, 1024), (0, 0), 0, true⟩ 1 1).exposureSetCalls = 1 :=
  (set_binning_exposure_reapply_discipline ⟨true, true, 0, true, (1, 1000, 1)⟩
    ⟨0, true⟩ ⟨(1280, 1024), (0, 0), 0, true⟩ 1 1).1 rfl

/-- C7 (code bug evidence): the decoder maps 0x0000 to 0 as claimed, but
maps 0x8058 (sign bit set, integer part 5, fractional nibble 8) to -4.5
instead of the claimed -5.5 (the sign multiplies only the integer part in
the source), and maps 0x0400 (integer-part bit 10 set) to 0 instead of 64
(the source masks with the 6-bit 0b111111, not the 7-bit 0b1111111 its
own comment documents). -/
theorem decode_temperature_evaluations :
    decode_temperature 0x0000 = 0
    ∧ decode_temperature 0x8058 = -9/2
    ∧ decode_temperature 0x0400 = 0 := by
  refine ⟨by simp only [decode_temperature]; norm_num, ?_, ?_⟩
  · have h1 : ((0x8058 : Nat) >>> 15) = 1 := by decide
    have h2 : ((0x8058 : Nat) >>> 4) &&& 0b111111 = 5 := by decide
    have h3 : (0x8058 : Nat) &&& 0b1111 = 8 := by decide
    simp only [decode_temperature, h1, h2, h3]
    norm_num
  · have h1 : ((0x0400 : Nat) >>> 15) = 0 := by decide
    have h2 : ((0x0400 : Nat) >>> 4) &&& 0b111111 = 0 := by decide
    have h3 : (0x0400 : Nat) &&& 0b1111 = 0 := by decide
    simp only [decode_temperature, h1, h2, h3]
    norm_num

/-- C8: for both power transitions, an unsupported-standby answer fails
the call with "not supported" leaving the state unchanged, a rejected
standby command fails the call leaving the state unchanged, and only a
successful command updates the state to the target value. -/
theorem power_transition_state_discipline (hw : PowerHw) (st : CamState) :
    (hw.standby_supported = false →
        on_enable hw st = (some (PyErr.runtimeError ("not supported") []), st)
        ∧ on_disable hw st = (some (PyErr.runtimeError ("not supported") []), st))
    ∧ (hw.standby_supported = true → hw.exit_ok = false →
        on_enable hw st = (some (PyErr.runtimeError ("failed to enter standby") []), st))
    ∧ (hw.standby_supported = true → hw.enter_ok = false →
        on_disable hw st = (some (PyErr.runtimeError ("failed to enter standby") []), st))
    ∧ (hw.standby_supported = true → hw.exit_ok = true →
        on_enable hw st = (none, { st with enabled := true }))
    ∧ (hw.standby_supported = true → hw.enter_ok = true →
        on_disable hw st = (none, { st with enabled := false })) := by
  obtain ⟨s, en, ex⟩ := hw
  cases s <;> cases en <;> cases ex <;> simp [on_enable, on_disable]

/-- Witness for `power_transition_state_discipline`: a concrete successful
enable transition updating the state to Enabled. -/
theorem power_transition_state_discipline_witness :
    on_enable ⟨true, true, true⟩ ⟨(1280, 1024), (1/1000, 1), 1/100, false⟩
      = (none, { (⟨(1280, 1024), (1/1000, 1), 1/100, false⟩ : CamState) with
                  enabled := true }) :=
  (power_transition_state_discipline ⟨true, true, true⟩
    ⟨(1280, 1024), (1/1000, 1), 1/100, false⟩).2.2.2.1 rfl rfl

/-- C9: for every color-mode code the hardware can report that is not in
the color-mode table, `_get_bits_per_pixel` fails with the RuntimeError
carrying the offending numeric code, and never returns any depth. -/
theorem get_bits_per_pixel_table_miss (hw : AcqHw)
    (h : COLORMODE_TO_N_BITS.lookup hw.colormode = none) :
    get_bits_per_pixel hw
      = .error (PyErr.runtimeError ("failed to get \"colormode\". Error code %d")
          [hw.colormode])
    ∧ ∀ n, get_bits_per_pixel hw ≠ .ok n := by
  unfold get_bits_per_pixel
  rw [h]
  simp

/-- Witness for `get_bits_per_pixel_table_miss`: the code 0 is not in the
table and yields the RuntimeError carrying 0. -/
theorem get_bits_per_pixel_table_miss_witness :
    get_bits_per_pixel ⟨0, true, true, true⟩
      = .error (PyErr.runtimeError ("failed to get \"colormode\". Error code %d") [0]) :=
  (get_bits_per_pixel_table_miss ⟨0, true, true, true⟩ rfl).1

/-- C10 (code bug evidence): `_read_exposure_range` keeps only (min, max)
— two hardware reports differing only in the increment give the same
result — but on the in-range request 3/4 s `set_exposure_time` passes
nothing at all to the hardware write (the inverted assertion raises
first), rather than the claimed saturating clamp. -/
theorem exposure_increment_discarded_and_no_write_issued :
    read_exposure_range ⟨true, true, 0, true, (1, 1000, 1)⟩
      = read_exposure_range ⟨true, true, 0, true, (1, 1000, 250)⟩
    ∧ read_exposure_range ⟨true, true, 0, true, (1, 1000, 1)⟩ = .ok (1/1000, 1)
    ∧ (set_exposure_time ⟨true, true, 0, true, (1, 1000, 1)⟩
          ⟨(1280, 1024), (1/1000, 1), 1/100, true⟩ (3/4)).2 = [] := by
  refine ⟨rfl, ?_, ?_⟩
  · simp only [read_exposure_range]
    norm_num
  · norm_num [set_exposure_time, read_exposure_time, min_def, max_def]

end IDSuEye
